import Mathlib

/-!
Verification development for the chat-based environmental-data assistant.

The definitions below are a shallow embedding of the query-understanding and
forecasting pipeline of the repository:

* `DataService` — the natural-language extractor (`_parse_date_range`,
  `_parse_coordinates`, `_parse_location`, `_parse_data_type`) and the
  structured query engine (`query`) of
  `backend/app/services/data_service.py`;
* `PredictionService` — the forecast input builder
  (`_prepare_input_sequence`) and the inference boundary (`predict`) of
  `backend/app/services/prediction_service.py`;
* `ChatService` — the orchestrator (`process_message`), intent detector
  (`_detect_prediction_request`), context assembler (`_build_context`) and
  suggestion generator (`_generate_suggestions`) of
  `backend/app/services/chat_service.py`.

Python strings are modelled as `List Char`, Python floats as `ℚ`, Python
`date`/`datetime` values as either calendar `Date` records (where calendar
validity matters) or day numbers `Int` (where only `timedelta` arithmetic
matters), fallible code as `Except`, and the Python regular expressions used
by the services as bespoke leftmost-match scanners over `List Char`.
External collaborators (database contents, the pickled scaler and category
encoders, the torch forward pass, the LLM) are parameters of the embedded
functions, so every theorem quantifies over their behaviour.
-/

/-! ## Basic character and string utilities -/

/-- ASCII lower-casing of a character; embeds the effect of Python
`str.lower()` on the alphabets that occur in this pipeline (ASCII letters;
Hangul has no case). -/
def lowerChar (c : Char) : Char :=
  if 'A' ≤ c ∧ c ≤ 'Z' then Char.ofNat (c.toNat + 32) else c

/-- Lower-case a whole string (as a character list). -/
def lowerStr (s : List Char) : List Char := s.map lowerChar

/-- ASCII decimal digit test (regex class `\d` on the inputs in scope). -/
def isDigitCh (c : Char) : Bool := '0' ≤ c ∧ c ≤ '9'

/-- Whitespace test (regex class `\s` on the inputs in scope). -/
def isSpaceCh (c : Char) : Bool :=
  c = ' ' ∨ c = '\t' ∨ c = '\n' ∨ c = '\r'

/-- Hangul syllable test (regex class `[가-힣]`). -/
def isHangulCh (c : Char) : Bool := '가' ≤ c ∧ c ≤ '힣'

/-- ASCII letter test (regex class `[A-Za-z]`). -/
def isAsciiLetterCh (c : Char) : Bool :=
  ('A' ≤ c ∧ c ≤ 'Z') ∨ ('a' ≤ c ∧ c ≤ 'z')

/-- Is `n` a prefix of `h`?  (Embeds Python `h.startswith(n)`.) -/
def listPre : List Char → List Char → Bool
  | [], _ => true
  | _ :: _, [] => false
  | a :: as, b :: bs => a == b && listPre as bs

/-- Is `n` a contiguous substring of `h`?  (Embeds Python `n in h`.) -/
def listSub (n h : List Char) : Bool :=
  listPre n h ||
    (match h with
     | [] => false
     | _ :: t => listSub n t)

/-- Substring test on `String`s (Python `n in h`). -/
def strIn (n h : String) : Bool := listSub n.toList h.toList

/-- Numeric value of a decimal digit character. -/
def digitVal (c : Char) : Nat := c.toNat - 48

/-- Natural number denoted by a digit run (Python `int(...)` on `\d+`). -/
def digitsToNat (ds : List Char) : Nat :=
  ds.foldl (fun a c => a * 10 + digitVal c) 0

/-- Maximal digit prefix of a character list together with the rest. -/
def takeDigits : List Char → List Char × List Char
  | [] => ([], [])
  | c :: t =>
    if isDigitCh c then
      let (ds, r) := takeDigits t
      (c :: ds, r)
    else ([], c :: t)

/-- Drop a maximal run of whitespace (regex `\s*`). -/
def dropSpaces : List Char → List Char
  | [] => []
  | c :: t => if isSpaceCh c then dropSpaces t else c :: t

/-- Expect one fixed character (a regex literal). -/
def expectCh (c : Char) : List Char → Option (List Char)
  | [] => none
  | a :: t => if a = c then some t else none

/-- Take exactly `n` digits (regex `\d{n}`); Python does not require the
digit run to end there. -/
def takeExactDigits : Nat → List Char → Option (List Char × List Char)
  | 0, l => some ([], l)
  | _ + 1, [] => none
  | n + 1, c :: t =>
    if isDigitCh c then
      match takeExactDigits n t with
      | some (ds, r) => some (c :: ds, r)
      | none => none
    else none

/-- Leftmost-match driver: `re.search` tries every start position from the
left and returns the first position where the pattern matches. -/
def searchL {α : Type} (m : List Char → Option α) : List Char → Option α
  | [] => m []
  | c :: t =>
    match m (c :: t) with
    | some r => some r
    | none => searchL m t

/-! ## Calendar dates

`Date` embeds Python `datetime.date`: constructing an invalid
(year, month, day) raises `ValueError`, which the embedding renders as
`Except.error`. -/

/-- A calendar date as Python's `datetime.date` stores it. -/
structure Date where
  year : Int
  month : Nat
  day : Nat
deriving DecidableEq, Repr

/-- Gregorian leap-year rule (as in Python's `calendar`/`datetime`). -/
def isLeapYear (y : Int) : Bool :=
  y % 4 = 0 ∧ (y % 100 ≠ 0 ∨ y % 400 = 0)

/-- Number of days in a month of a given year. -/
def daysInMonth (y : Int) (m : Nat) : Nat :=
  if m = 2 then (if isLeapYear y then 29 else 28)
  else if m = 4 ∨ m = 6 ∨ m = 9 ∨ m = 11 then 30
  else 31

/-- Validity condition enforced by the `datetime.date` constructor
(including its `MINYEAR`/`MAXYEAR` bounds). -/
def isValidDate (y : Int) (m d : Nat) : Bool :=
  1 ≤ y ∧ y ≤ 9999 ∧ 1 ≤ m ∧ m ≤ 12 ∧ 1 ≤ d ∧ d ≤ daysInMonth y m

/-- Embeds the `datetime.date(y, m, d)` constructor: a structured value on
success, a `ValueError` on an invalid calendar combination. -/
def mkDate (y : Int) (m d : Nat) : Except String Date :=
  if isValidDate y m d then .ok ⟨y, m, d⟩
  else .error "ValueError: day is out of range for month"

/-- The day before the first of a month (used by `_parse_year_month`, which
computes the last day of a month as `date(y, m+1, 1) - timedelta(days=1)`). -/
def dayBeforeFirst (y : Int) (m : Nat) : Date :=
  if m = 1 then ⟨y - 1, 12, 31⟩ else ⟨y, m - 1, daysInMonth y (m - 1)⟩

/-- Zero-padded two-digit rendering, as in `date.isoformat()`. -/
def pad2 (n : Nat) : String :=
  if n < 10 then "0" ++ toString n else toString n

/-- Embeds `date.isoformat()`. -/
def Date.iso (d : Date) : String :=
  toString d.year ++ "-" ++ pad2 d.month ++ "-" ++ pad2 d.day

/-- Calendar comparison `a <= b` on dates (lexicographic on y, m, d), the
order the database uses for the `date` column. -/
def Date.le (a b : Date) : Bool :=
  a.year < b.year ∨
    (a.year = b.year ∧
      (a.month < b.month ∨ (a.month = b.month ∧ a.day ≤ b.day)))

/-! ## DataService: date-range extraction

Embeds `DataService._parse_date_range` and its three pattern handlers
(`backend/app/services/data_service.py`, lines 90-143).  The patterns are
tried in the fixed priority order of the source list and the first regex
with a search hit wins. -/

namespace DataService

/-- Match of the regex `(\d{4})년\s*(\d{1,2})월` at the current position,
returning the captured (year, month). -/
def matchYearMonthAt (l : List Char) : Option (Nat × Nat) :=
  match takeExactDigits 4 l with
  | none => none
  | some (ys, r1) =>
    match expectCh '년' r1 with
    | none => none
    | some r2 =>
      let r3 := dropSpaces r2
      match r3 with
      | a :: rest =>
        if isDigitCh a then
          match rest with
          | b :: rest2 =>
            if isDigitCh b then
              match rest2 with
              | c :: _ =>
                if c = '월' then some (digitsToNat ys, 10 * digitVal a + digitVal b)
                else none
              | [] => none
            else if b = '월' then some (digitsToNat ys, digitVal a)
            else none
          | [] => none
        else none
      | [] => none

/-- Match of the regex `과거\s*(\d+)\s*년` at the current position,
returning the captured year count. -/
def matchPastYearsAt (l : List Char) : Option Nat :=
  match expectCh '과' l with
  | none => none
  | some r1 =>
    match expectCh '거' r1 with
    | none => none
    | some r2 =>
      let (ds, r3) := takeDigits (dropSpaces r2)
      if ds.isEmpty then none
      else
        match expectCh '년' (dropSpaces r3) with
        | none => none
        | some _ => some (digitsToNat ds)

/-- Match of the regex `(\d{4})-(\d{2})-(\d{2})` at the current position. -/
def matchIsoDateAt (l : List Char) : Option (Nat × Nat × Nat) :=
  match takeExactDigits 4 l with
  | none => none
  | some (ys, r1) =>
    match expectCh '-' r1 with
    | none => none
    | some r2 =>
      match takeExactDigits 2 r2 with
      | none => none
      | some (ms, r3) =>
        match expectCh '-' r3 with
        | none => none
        | some r4 =>
          match takeExactDigits 2 r4 with
          | none => none
          | some (ds, _) => some (digitsToNat ys, digitsToNat ms, digitsToNat ds)

/-- Embeds `_parse_year_month`: first day of the month to the last day of the
month, the latter computed as the first of the next month minus one day. -/
def parseYearMonth (y m : Nat) : Except String (Date × Date) := do
  let startDate ← mkDate y m 1
  let endFirst ← if m = 12 then mkDate ((y : Int) + 1) 1 1 else mkDate y (m + 1) 1
  .ok (startDate, dayBeforeFirst endFirst.year endFirst.month)

/-- Embeds `_parse_past_years`: `date(today.year - years, today.month,
today.day)` up to today.  The `date` constructor raises `ValueError` when
that start day does not exist (today is Feb 29 and the target year is not a
leap year). -/
def parsePastYears (years : Nat) (today : Date) : Except String (Date × Date) := do
  let startDate ← mkDate (today.year - years) today.month today.day
  .ok (startDate, today)

/-- Embeds `_parse_iso_date`: a single-day range. -/
def parseIsoDate (y m d : Nat) : Except String (Date × Date) := do
  let p ← mkDate y m d
  .ok (p, p)

/-- Embeds `_parse_date_range`: the three `(pattern, parser)` pairs tried in
source order, the first regex with a search hit short-circuiting; `none` when
no pattern matches anywhere in the text. -/
def parseDateRange (today : Date) (q : List Char) : Except String (Option (Date × Date)) :=
  match searchL matchYearMonthAt q with
  | some (y, m) => (parseYearMonth y m).map some
  | none =>
    match searchL matchPastYearsAt q with
    | some n => (parsePastYears n today).map some
    | none =>
      match searchL matchIsoDateAt q with
      | some (y, m, d) => (parseIsoDate y m d).map some
      | none => .ok none

end DataService

/-! ## DataService: coordinate extraction

Embeds `_parse_coordinates` (data_service.py, lines 145-165). -/

namespace DataService

/-- Match of the regex group `([+-]?\d+\.?\d*)` at the current position:
optional sign, a nonempty digit run, an optional dot, a digit run; returns
the rational value the Python `float(...)` call produces, plus the rest. -/
def matchNumberAt (l : List Char) : Option (ℚ × List Char) :=
  let (sgn, l1) :=
    match l with
    | '+' :: t => ((1 : ℚ), t)
    | '-' :: t => ((-1 : ℚ), t)
    | _ => ((1 : ℚ), l)
  let (ip, l2) := takeDigits l1
  if ip.isEmpty then none
  else
    let (fp, l3) :=
      match l2 with
      | '.' :: t =>
        let (ds, r) := takeDigits t
        (ds, r)
      | _ => ([], l2)
    let value : ℚ :=
      sgn * ((digitsToNat ip : ℚ) + (digitsToNat fp : ℚ) / ((10 : ℚ) ^ fp.length))
    some (value, l3)

/-- Match of the regex `\(?\s*([+-]?\d+\.?\d*)\s*,\s*([+-]?\d+\.?\d*)\s*\)?`
at the current position (the trailing `\s*\)?` always succeeds and binds no
capture). -/
def matchCoordPairAt (l : List Char) : Option (ℚ × ℚ) :=
  let l0 :=
    match l with
    | '(' :: t => t
    | _ => l
  match matchNumberAt (dropSpaces l0) with
  | none => none
  | some (la, r1) =>
    match expectCh ',' (dropSpaces r1) with
    | none => none
    | some r2 =>
      match matchNumberAt (dropSpaces r2) with
      | none => none
      | some (lo, _) => some (la, lo)

/-- Match of `경도\s*[:=]?\s*([+-]?\d+\.?\d*)` at the current position. -/
def matchLonAt (l : List Char) : Option ℚ :=
  match expectCh '경' l with
  | none => none
  | some r1 =>
    match expectCh '도' r1 with
    | none => none
    | some r2 =>
      let r3 :=
        match dropSpaces r2 with
        | ':' :: t => dropSpaces t
        | '=' :: t => dropSpaces t
        | other => other
      match matchNumberAt r3 with
      | none => none
      | some (v, _) => some v

/-- Match of the regex
`위도\s*[:=]?\s*([+-]?\d+\.?\d*).*?경도\s*[:=]?\s*([+-]?\d+\.?\d*)` at the
current position; the lazy `.*?` takes the earliest following position at
which the longitude part matches. -/
def matchLatLonAt (l : List Char) : Option (ℚ × ℚ) :=
  match expectCh '위' l with
  | none => none
  | some r1 =>
    match expectCh '도' r1 with
    | none => none
    | some r2 =>
      let r3 :=
        match dropSpaces r2 with
        | ':' :: t => dropSpaces t
        | '=' :: t => dropSpaces t
        | other => other
      match matchNumberAt r3 with
      | none => none
      | some (la, r4) =>
        match searchL matchLonAt r4 with
        | none => none
        | some lo => some (la, lo)

/-- Embeds `_parse_coordinates`: the two coordinate regexes tried in order;
for each, only the first (leftmost) search hit is considered, and a hit is
accepted only when `30 <= lat <= 45 and 120 <= lon <= 135`. -/
def parseCoordinates (q : List Char) : Option (ℚ × ℚ) :=
  let tryPat2 : Option (ℚ × ℚ) :=
    match searchL matchLatLonAt q with
    | some (la, lo) =>
      if 30 ≤ la ∧ la ≤ 45 ∧ 120 ≤ lo ∧ lo ≤ 135 then some (la, lo) else none
    | none => none
  match searchL matchCoordPairAt q with
  | some (la, lo) =>
    if 30 ≤ la ∧ la ≤ 45 ∧ 120 ≤ lo ∧ lo ≤ 135 then some (la, lo) else tryPat2
  | none => tryPat2

end DataService

/-! ## DataService: location and data-type extraction

Embeds `_find_location_by_coordinates`, `_parse_location` and
`_parse_data_type` (data_service.py, lines 167-249).  The gazetteer
(`known_locations`) and the keyword dictionary (`data_type_mapping`) are
loaded at startup from the `model_config.json` artifact, which is not part of
the repository source; both are therefore parameters of the embedded
functions, in the list order Python iterates them. -/

namespace DataService

/-- One row of the `environmental_data` table, with exactly the columns the
pipeline reads (`app/models/env_data.py`); nullable columns are `Option`. -/
structure EDRecord where
  id : Nat
  location : String
  latitude : Option ℚ
  longitude : Option ℚ
  date : Date
  dt : Option String
  dataType : String
  value : Option ℚ
  value2 : Option ℚ
  value3 : Option ℚ
  unit : Option String
deriving DecidableEq, Repr

/-- Does a record pass the coordinate-tolerance filter
`abs(latitude - lat) < tol AND abs(longitude - lon) < tol AND latitude IS NOT
NULL AND longitude IS NOT NULL`? -/
def coordClose (la lo tol : ℚ) (r : EDRecord) : Bool :=
  match r.latitude, r.longitude with
  | some rla, some rlo => |rla - la| < tol ∧ |rlo - lo| < tol
  | _, _ => false

/-- First-occurrence deduplication (the `DISTINCT` of the location query,
in row order). -/
def dedup (l : List String) : List String :=
  l.foldl (fun acc x => if acc.contains x then acc else acc ++ [x]) []

/-- Number of rows stored for a location (`COUNT` over
`location == l`). -/
def locationCount (db : List EDRecord) (l : String) : Nat :=
  (db.filter (fun r => r.location = l)).length

/-- Embeds `_find_location_by_coordinates` with its default tolerance of
0.001 degrees: the distinct locations whose coordinates lie within the
tolerance box, returning the one with the most stored records (Python `max`
keeps the first maximum in iteration order); `none` when no row matches. -/
def findLocationByCoordinates (db : List EDRecord) (la lo : ℚ) : Option String :=
  let tol : ℚ := 1 / 1000
  let hits := dedup ((db.filter (coordClose la lo tol)).map (fun r => r.location))
  match hits with
  | [] => none
  | m0 :: rest =>
    some (rest.foldl
      (fun best l => if locationCount db l > locationCount db best then l else best)
      m0)

/-- Stable insertion of a string into a longest-first sorted list (ties keep
the earlier element first, as Python's stable `sorted` does). -/
def insertByLenDesc (x : String) : List String → List String
  | [] => [x]
  | y :: ys => if y.length ≤ x.length then x :: y :: ys else y :: insertByLenDesc x ys

/-- Embeds `sorted(self.known_locations, key=len, reverse=True)`. -/
def sortByLenDesc (l : List String) : List String := l.foldr insertByLenDesc []

/-- Greedy-with-backtracking match of `([클래스]+(?:alt₁|alt₂|...))` at the
current position: the character-class run is taken maximally and shortened
one character at a time (Python's `+` backtracking), at each split trying the
alternatives in source order; `minRun` is the least run the quantifier must
keep (1 for `+`, 2 for `{2,}`).  Returns the captured text. -/
def matchRunSuffixSplit (minRun : Nat) (alts : List (List Char)) (run : List Char) :
    Nat → Option (List Char)
  | 0 => none
  | k + 1 =>
    if k + 1 < minRun then none
    else
      match alts.find? (fun a => listPre a (run.drop (k + 1))) with
      | some a => some (run.take (k + 1) ++ a)
      | none => matchRunSuffixSplit minRun alts run k

/-- Match of `([cls]+(?:alt₁|...))` (or `{2,}` for `minRun = 2`) at the
current position: the class run from here is maximal, and all alternative
characters lie in the class, so a match lies inside the run. -/
def matchRunSuffixAt (cls : Char → Bool) (minRun : Nat) (alts : List (List Char))
    (l : List Char) : Option (List Char) :=
  let run := l.takeWhile cls
  if run.isEmpty then none
  else matchRunSuffixSplit minRun alts run run.length

/-- The suffix alternatives of the first generic location pattern
`([가-힣]+(?:보|호|댐|강|하천|천|시|도|구|동|리))`, in source order. -/
def hangulSuffixes1 : List (List Char) :=
  [['보'], ['호'], ['댐'], ['강'], ['하', '천'], ['천'], ['시'], ['도'], ['구'], ['동'], ['리']]

/-- The suffix alternatives of `([가-힣]{2,}(?:보|호|댐))`. -/
def hangulSuffixes2 : List (List Char) := [['보'], ['호'], ['댐']]

/-- The suffix alternatives of `([A-Za-z]+(?:Lake|River|Station))`. -/
def asciiSuffixes : List (List Char) :=
  ["Lake".toList, "River".toList, "Station".toList]

/-- Embeds the generic-pattern stage of `_parse_location` (lines 220-235):
the three location regexes are tried in order; on the first search hit the
captured text itself is returned (the loop over `sorted_locations` also
returns the captured text, so the gazetteer cross-check does not change the
result). -/
def parseLocationGeneric (q : List Char) : Option String :=
  match searchL (matchRunSuffixAt isHangulCh 1 hangulSuffixes1) q with
  | some cap => some (String.mk cap)
  | none =>
    match searchL (matchRunSuffixAt isHangulCh 2 hangulSuffixes2) q with
    | some cap => some (String.mk cap)
    | none =>
      match searchL (matchRunSuffixAt isAsciiLetterCh 1 asciiSuffixes) q with
      | some cap => some (String.mk cap)
      | none => none

/-- Embeds `_parse_location`: coordinates first (when a database handle is
available), then the longest-name-first gazetteer scan (a known location
matches when it occurs in the text or its lower-cased form occurs in the
lower-cased text), then the generic suffix patterns. -/
def parseLocation (knownLocations : List String) (db : List EDRecord)
    (q : List Char) : Option String :=
  let ql := lowerStr q
  let afterCoords : Option String :=
    match parseCoordinates q with
    | some (la, lo) => findLocationByCoordinates db la lo
    | none => none
  match afterCoords with
  | some l => some l
  | none =>
    let sortedLocations := sortByLenDesc knownLocations
    match sortedLocations.find?
        (fun kl => listSub kl.toList q || listSub (lowerStr kl.toList) ql) with
    | some kl => some kl
    | none => parseLocationGeneric q

/-- Embeds `_parse_data_type`: the first `(keyword, db_type)` pair of the
mapping whose keyword occurs lower-cased in the lower-cased question or
verbatim in the question wins; a falsy (empty) `db_type` is skipped by the
`if db_type:` guard, in which case the scan keeps going. -/
def parseDataType (mapping : List (String × String)) (q : List Char) : Option String :=
  let ql := lowerStr q
  match mapping.find?
      (fun kv =>
        (listSub (lowerStr kv.1.toList) ql || listSub kv.1.toList q) && ¬ (kv.2 = "")) with
  | some kv => some kv.2
  | none => none

end DataService

/-! ## DataService: the structured query engine

Embeds `DataService.query` (data_service.py, lines 251-429).  The SQL layer
is modelled as list filtering/aggregation over the table contents; the
sequential Python locals — in particular the loop
`for data_type, count, min_val, max_val, avg_val in type_stats:` which
rebinds the local `data_type` — are threaded with `Id.run do` mutation. -/

namespace DataService

/-- Per-type aggregate block (`count`, `min`, `max`, `avg`). -/
structure TypeStat where
  count : Nat
  min : Option ℚ
  max : Option ℚ
  avg : Option ℚ
deriving DecidableEq, Repr

/-- Overall aggregate block. -/
structure OverallStat where
  count : Nat
  min : Option ℚ
  max : Option ℚ
  avg : Option ℚ
deriving DecidableEq, Repr

/-- The `statistics` block: a dict with exactly the keys `"overall"` and
`"by_type"`. -/
structure Stats where
  overall : OverallStat
  by_type : List (String × TypeStat)
deriving DecidableEq, Repr

/-- One formatted sample row of the `results` list. -/
structure ResultRow where
  id : Nat
  location : String
  date : Option String
  dt : Option String
  data_type : String
  value : Option ℚ
  value2 : Option ℚ
  value3 : Option ℚ
  unit : Option String
deriving DecidableEq, Repr

/-- The `metadata` block of a query result. -/
structure QueryMetadata where
  date_range : Option (String × String)
  location : Option String
  data_type : Option String
  total_found : Nat
  found_by_coordinates : Bool
  coordinates : Option (ℚ × ℚ)
deriving DecidableEq, Repr

/-- The full return value of `DataService.query`. -/
structure QueryData where
  results : List ResultRow
  statistics : Stats
  metadata : QueryMetadata
deriving DecidableEq, Repr

/-- Does a row satisfy the conjunction of the applied filters?  (The
location disjunction is `location == loc OR location CONTAINS loc OR
location == known` for every gazetteer entry `known` sharing a substring
relation with `loc`.) -/
def rowMatches (knownLocations : List String) (dateRange : Option (Date × Date))
    (location : Option String) (dataType : Option String) (r : EDRecord) : Bool :=
  (match dateRange with
   | some (s, e) => Date.le s r.date && Date.le r.date e
   | none => true) &&
  (match location with
   | some loc =>
     (r.location = loc) || listSub loc.toList r.location.toList ||
       knownLocations.any
         (fun known =>
           (listSub loc.toList known.toList || listSub known.toList loc.toList) &&
             r.location = known)
   | none => true) &&
  (match dataType with
   | some dt => r.dataType = dt
   | none => true)

/-- Minimum of a value list (`func.min` over non-null values). -/
def qMin : List ℚ → Option ℚ
  | [] => none
  | v :: t => some (t.foldl min v)

/-- Maximum of a value list (`func.max`). -/
def qMax : List ℚ → Option ℚ
  | [] => none
  | v :: t => some (t.foldl max v)

/-- Average of a value list (`func.avg`). -/
def qAvg : List ℚ → Option ℚ
  | [] => none
  | v :: t => some (((v :: t).sum) / ((v :: t).length : ℚ))

/-- Append a value to its data-type group, keeping first-occurrence group
order (the grouped SQL rows in row order). -/
def addToGroup : List (String × List ℚ) → String → ℚ → List (String × List ℚ)
  | [], t, v => [(t, [v])]
  | (t0, vs) :: rest, t, v =>
    if t0 = t then (t0, vs ++ [v]) :: rest else (t0, vs) :: addToGroup rest t v

/-- Group the non-null values of the filtered rows by `data_type`
(the `group_by(EnvironmentalData.data_type)` query with the
`value.isnot(None)` filter). -/
def groupVals (rows : List EDRecord) : List (String × List ℚ) :=
  rows.foldl
    (fun acc r =>
      match r.value with
      | none => acc
      | some v => addToGroup acc r.dataType v)
    []

/-- Aggregates of one nonempty group. -/
def mkTypeStat (vs : List ℚ) : TypeStat :=
  ⟨vs.length, qMin vs, qMax vs, qAvg vs⟩

/-- Embeds the `if total_count > 0:` statistics loop, with its Python local
`data_type` rebound by each iteration (the loop variable shadows the parsed
data type and survives the loop). -/
def statsLoop (total : Nat) (parsed : Option String)
    (groups : List (String × TypeStat)) :
    List (String × TypeStat) × Option String := Id.run do
  let mut dataTypeVar := parsed
  let mut statsByType : List (String × TypeStat) := []
  if total > 0 then
    for g in groups do
      statsByType := statsByType ++ [g]
      dataTypeVar := some g.1
  return (statsByType, dataTypeVar)

/-- Stable insertion for most-recent-first ordering
(`order_by(EnvironmentalData.date.desc())`). -/
def insertByDateDesc (x : EDRecord) : List EDRecord → List EDRecord
  | [] => [x]
  | y :: ys => if Date.le y.date x.date then x :: y :: ys else y :: insertByDateDesc x ys

/-- Most-recent-first sort of the matched rows. -/
def sortByDateDesc (l : List EDRecord) : List EDRecord := l.foldr insertByDateDesc []

/-- Formats one sample row exactly as the `results` list does. -/
def toResultRow (r : EDRecord) : ResultRow :=
  ⟨r.id, r.location, some r.date.iso, r.dt, r.dataType, r.value, r.value2, r.value3, r.unit⟩

/-- Embeds `DataService.query`: parse the three filters from the question,
apply them, compute the statistics blocks, the capped most-recent-first
sample and the metadata block.  `mapping` and `knownLocations` stand for the
startup-loaded keyword dictionary and gazetteer; `today` is the current date
used by the `과거 N년` handler; `db` is the table contents.  A `ValueError`
raised by a date constructor propagates (there is no `except` in the
source). -/
def query (mapping : List (String × String)) (knownLocations : List String)
    (today : Date) (question : String) (db : List EDRecord) :
    Except String QueryData := do
  let q := question.toList
  let dateRange ← parseDateRange today q
  let coords := parseCoordinates q
  let (location, foundByCoords, coordsInfo) :
      Option String × Bool × Option (ℚ × ℚ) :=
    match coords with
    | some (la, lo) =>
      (match findLocationByCoordinates db la lo with
       | some l => (some l, true, some (la, lo))
       | none => (none, false, none))
    | none => (parseLocation knownLocations db q, false, none)
  let dataTypeParsed := parseDataType mapping q
  let filtered := db.filter (rowMatches knownLocations dateRange location dataTypeParsed)
  let total := filtered.length
  let groups := (groupVals filtered).map (fun g => (g.1, mkTypeStat g.2))
  let (statsByType, dataTypeAfterLoop) := statsLoop total dataTypeParsed groups
  let nonNullVals := filtered.filterMap (fun r => r.value)
  let overall : OverallStat :=
    if total > 0 then ⟨total, qMin nonNullVals, qMax nonNullVals, qAvg nonNullVals⟩
    else ⟨0, none, none, none⟩
  let sample := (sortByDateDesc filtered).take 20
  .ok
    { results := sample.map toResultRow
      statistics := ⟨overall, statsByType⟩
      metadata :=
        { date_range := dateRange.map (fun p => (p.1.iso, p.2.iso))
          location := location
          data_type := dataTypeAfterLoop
          total_found := total
          found_by_coordinates := foundByCoords
          coordinates := coordsInfo } }

end DataService

/-! ## PredictionService: forecast input builder and inference boundary

Embeds `_prepare_input_sequence` and `predict`
(`backend/app/services/prediction_service.py`, lines 97-283).  Dates enter
this service only through `timedelta(weeks=...)` arithmetic and half-open
window comparisons, so they are modelled as day numbers (`Int`).  The model
artifacts are parameters: `cfg` stands for the loaded `model_config.json`
values the function reads, `scaler` for `self.scaler.transform` (row-wise on
the reshaped matrix), `log1p`/`expm1` for the `np.log1p`/`np.expm1`
element-wise transforms, `weekKey` for `_get_week_of_year` composed with the
one-week shift, `tEnc`/`sEnc` for the pickled category encoders and `infer`
for the torch forward pass.  A Python exception is an `Except.error` carrying
a `PyErr`. -/

namespace PredictionService

/-- A Python exception: the `except ValueError` handlers in `predict`
distinguish `ValueError` from everything else. -/
inductive PyErr where
  | valueError (msg : String)
  | other (msg : String)
deriving DecidableEq, Repr

/-- The `str(e)` message of an exception. -/
def PyErr.msg : PyErr → String
  | .valueError m => m
  | .other m => m

/-- One database row as this service reads it: `location`, `date`,
`data_type`, nullable `value`. -/
structure PRecord where
  location : String
  date : Int
  dataType : String
  value : Option ℚ
deriving DecidableEq, Repr

/-- The `model_config.json` fields `_prepare_input_sequence` and `predict`
read. -/
structure PredConfig where
  seqLen : Nat
  featureOrder : List String
  cyanoVars : List String
  log1pApplied : Bool
deriving DecidableEq, Repr

/-- The rows of one weekly window: matching location (SQL `contains`) and
`week_start <= date < week_end` where the bounds are
`target_date - timedelta(weeks=offset)` and
`target_date - timedelta(weeks=offset-1)`. -/
def windowRecords (db : List PRecord) (loc : String) (target : Int) (offset : Nat) :
    List PRecord :=
  db.filter
    (fun r =>
      listSub loc.toList r.location.toList &&
        decide (target - 7 * (offset : Int) ≤ r.date) &&
        decide (r.date < target - 7 * ((offset : Int) - 1)))

/-- The non-null values of a window whose `data_type` equals the feature
name (the inner loop over `week_data`). -/
def matchingValues (w : List PRecord) (var : String) : List ℚ :=
  (w.filter (fun r => r.dataType = var)).filterMap (fun r => r.value)

/-- `np.mean(values) if values else 0.0`: the weekly average of one
feature, 0.0 when the feature has no value in the window. -/
def weekValue (w : List PRecord) (var : String) : ℚ :=
  let vs := matchingValues w var
  if vs.isEmpty then 0 else vs.sum / (vs.length : ℚ)

/-- One feature vector in canonical feature order
(`[week_values.get(var, 0.0) for var in feature_order]`). -/
def weekRow (cfg : PredConfig) (w : List PRecord) : List ℚ :=
  cfg.featureOrder.map (weekValue w)

/-- The week offsets `range(seq_len, 0, -1)`, i.e. `[seqLen, ..., 1]`. -/
def offsets (n : Nat) : List Nat := (List.range n).map (fun i => n - i)

/-- The per-week loop of `_prepare_input_sequence`: for each offset, query
the window; an empty window returns `None` immediately; otherwise the weekly
feature vector is appended. -/
def buildRows (cfg : PredConfig) (db : List PRecord) (loc : String) (target : Int) :
    List Nat → Option (List (List ℚ))
  | [] => some []
  | o :: rest =>
    let w := windowRecords db loc target o
    if w.isEmpty then none
    else
      match buildRows cfg db loc target rest with
      | none => none
      | some rs => some (weekRow cfg w :: rs)

/-- Embeds `_prepare_input_sequence`: build the `seq_len` weekly rows,
apply `np.log1p` element-wise when the preprocessing flag requires it, apply
the persisted scaler row-wise, and pair the matrix with the temporal context
(the week-of-year key of `target_date - timedelta(weeks=1)`) and the spatial
context (the location string). -/
def prepareInputSequence (cfg : PredConfig) (scaler : List ℚ → List ℚ)
    (log1p : ℚ → ℚ) (weekKey : Int → String) (db : List PRecord)
    (loc : String) (target : Int) :
    Option (List (List ℚ) × String × String) :=
  match buildRows cfg db loc target (offsets cfg.seqLen) with
  | none => none
  | some rows =>
    let rows1 := if cfg.log1pApplied then rows.map (fun r => r.map log1p) else rows
    let scaled := rows1.map scaler
    some (scaled, weekKey (target - 7), loc)

/-- The dict `predict` returns (`success`, `error`, `location`,
`target_date`, `predictions`, `metadata`); keys that a branch does not set
are `none`. -/
structure PredictOutput where
  success : Bool
  error : Option String
  location : String
  target_date : Option String
  predictions : Option (List (String × ℚ))
  modelMeta : Option (String × Nat × Bool)
deriving DecidableEq, Repr

/-- Day-number stand-in for `target_date.isoformat()`; the pipeline treats
the rendered date as an opaque tag. -/
def dayIso (d : Int) : String := toString d

/-- The insufficient-data failure value of `predict`. -/
def insufficientFailure (loc : String) (target : Int) : PredictOutput :=
  { success := false
    error := some "예측을 위한 충분한 과거 데이터가 없습니다."
    location := loc
    target_date := some (dayIso target)
    predictions := none
    modelMeta := none }

/-- The generic exception-to-failure conversion of the outer
`except Exception as e:` handler. -/
def failureShape (m : String) (loc : String) (target : Int) : PredictOutput :=
  { success := false
    error := some m
    location := loc
    target_date := some (dayIso target)
    predictions := none
    modelMeta := none }

/-- Embeds the `try: ... except ValueError: encoded = 0` blocks around
`encoder.transform([...])[0]`: a `ValueError` degrades to index 0, any other
exception keeps propagating. -/
def encodeCategory (enc : String → Except PyErr Nat) (c : String) : Except PyErr Nat :=
  match enc c with
  | .ok n => .ok n
  | .error (.valueError _) => .ok 0
  | .error (.other m) => .error (.other m)

/-- The body of `predict` inside the outer `try` (after the sequence is
prepared): encode the two contexts, run the forward pass, undo `log1p` when
it was applied, and format the success dict. -/
def predictBody (cfg : PredConfig) (tEnc sEnc : String → Except PyErr Nat)
    (infer : List (List ℚ) → Nat → Nat → Except PyErr (List ℚ)) (expm1 : ℚ → ℚ)
    (xs : List (List ℚ)) (tc sc : String) (loc : String) (target : Int) :
    Except PyErr PredictOutput := do
  let te ← encodeCategory tEnc tc
  let se ← encodeCategory sEnc sc
  let preds ← infer xs te se
  let preds1 := if cfg.log1pApplied then preds.map expm1 else preds
  .ok
    { success := true
      error := none
      location := loc
      target_date := some (dayIso target)
      predictions := some (cfg.cyanoVars.zip preds1)
      modelMeta := some ("TimeSeriesTransformer", cfg.seqLen, cfg.log1pApplied) }

/-- The whole `try` block of `predict`: the insufficient-data early return,
then the encoding/inference body. -/
def predictUnchecked (cfg : PredConfig) (scaler : List ℚ → List ℚ)
    (log1p expm1 : ℚ → ℚ) (weekKey : Int → String)
    (tEnc sEnc : String → Except PyErr Nat)
    (infer : List (List ℚ) → Nat → Nat → Except PyErr (List ℚ))
    (db : List PRecord) (loc : String) (target : Int) :
    Except PyErr PredictOutput :=
  match prepareInputSequence cfg scaler log1p weekKey db loc target with
  | none => .ok (insufficientFailure loc target)
  | some (xs, tc, sc) => predictBody cfg tEnc sEnc infer expm1 xs tc sc loc target

/-- Embeds `predict`: the outer `except Exception as e:` converts any
exception escaping the body into the failure shape carrying `str(e)`;
`predict` itself therefore always returns a structured dict. -/
def predict (cfg : PredConfig) (scaler : List ℚ → List ℚ)
    (log1p expm1 : ℚ → ℚ) (weekKey : Int → String)
    (tEnc sEnc : String → Except PyErr Nat)
    (infer : List (List ℚ) → Nat → Nat → Except PyErr (List ℚ))
    (db : List PRecord) (loc : String) (target : Int) : PredictOutput :=
  match predictUnchecked cfg scaler log1p expm1 weekKey tEnc sEnc infer db loc target with
  | .ok r => r
  | .error e => failureShape e.msg loc target

end PredictionService

/-! ## Dict view of the statistics block

`process_message` and `_generate_suggestions` read
`env_data.get("statistics", {}).get("count", 0)`: a dictionary lookup on the
statistics block.  `JVal` gives the statistics structure its Python-dict
face so that lookup is embedded as real key search. -/

/-- A Python/JSON-style value. -/
inductive JVal where
  | null
  | num (q : ℚ)
  | str (s : String)
  | bool (b : Bool)
  | obj (fields : List (String × JVal))
deriving Repr

/-- Dictionary lookup (`d[k]` when the key exists). -/
def jget : JVal → String → Option JVal
  | .obj fs, k => (fs.find? (fun f => f.1 = k)).map (fun f => f.2)
  | _, _ => none

/-- Dictionary lookup with default (`d.get(k, dflt)`). -/
def jgetD (j : JVal) (k : String) (d : JVal) : JVal := (jget j k).getD d

/-- Optional number as a dict value. -/
def optNumJ : Option ℚ → JVal
  | none => .null
  | some q => .num q

namespace DataService

/-- The per-type aggregate dict exactly as `query` builds it. -/
def TypeStat.toJVal (t : TypeStat) : JVal :=
  .obj [("count", .num t.count), ("min", optNumJ t.min),
        ("max", optNumJ t.max), ("avg", optNumJ t.avg)]

/-- The overall aggregate dict exactly as `query` builds it. -/
def OverallStat.toJVal (t : OverallStat) : JVal :=
  .obj [("count", .num t.count), ("min", optNumJ t.min),
        ("max", optNumJ t.max), ("avg", optNumJ t.avg)]

/-- The statistics dict exactly as `query` builds it:
`{"overall": overall_stats, "by_type": stats_by_type}` — these two keys and
no others. -/
def Stats.toJVal (s : Stats) : JVal :=
  .obj [("overall", s.overall.toJVal),
        ("by_type", .obj (s.by_type.map (fun g => (g.1, g.2.toJVal))))]

end DataService

/-! ## Number formatting helpers

Embed the f-string conversions `{n:,}`, `{x:.2f}`, `{x:.4f}` used by the
context assembler; the assembler's behaviour never depends on the rendered
digits, only on these conversions being total. -/

/-- Insert thousands separators into a reversed digit list. -/
def commasRev : Nat → List Char → List Char
  | _, [] => []
  | i, c :: t =>
    if 0 < i ∧ i % 3 = 0 then ',' :: c :: commasRev (i + 1) t
    else c :: commasRev (i + 1) t

/-- Embeds `format(n, ",")` for a nonnegative integer. -/
def fmtComma (n : Nat) : String :=
  String.mk ((commasRev 0 (toString n).toList.reverse).reverse)

/-- Left-pad with zeros to a fixed width. -/
def padZeros (w : Nat) (s : String) : String :=
  if s.length < w then String.mk (List.replicate (w - s.length) '0') ++ s else s

/-- Fixed-point rendering with `prec` fractional digits (the `.2f`/`.4f`
conversions; rounding mode is irrelevant to every property proved here). -/
def fmtFixed (prec : Nat) (q : ℚ) : String :=
  let scaled : ℤ := round (q * (10 : ℚ) ^ prec)
  let sgn := if scaled < 0 then "-" else ""
  let a := scaled.natAbs
  sgn ++ toString (a / 10 ^ prec) ++ "." ++ padZeros prec (toString (a % 10 ^ prec))

/-- Rendering of an arbitrary float value in an f-string (opaque text). -/
def renderQ (q : ℚ) : String := toString q

/-- Python rendering of a possibly-`None` string in an f-string. -/
def renderOptStr : Option String → String
  | some s => s
  | none => "None"

/-- Python rendering of a possibly-`None` float in an f-string. -/
def renderOptQ : Option ℚ → String
  | some q => renderQ q
  | none => "None"

/-! ## ChatService: prediction-intent detection

Embeds `_detect_prediction_request` (chat_service.py, lines 99-181). -/

namespace ChatService

/-- The forecast-trigger keyword list, verbatim from the source (including
its duplicated entry). -/
def predictionKeywords : List String :=
  ["예측", "예상", "미래", "앞으로", "다음주", "다음 주",
   "1주", "2주", "3주", "4주", "일주일", "이주일",
   "향후", "앞으로", "예보"]

/-- The curated explicit-location list, verbatim from the source. -/
def locationKeywords : List String :=
  ["강정고령보", "강천보", "공주보", "구미보", "낙단보",
   "다사", "강천", "금강", "선산", "낙단"]

/-- Match of `(\d+)\s*주\s*(뒤|후|뒤에|후에)` at the current position
(matching `뒤` or `후` suffices, since `뒤에`/`후에` begin with them). -/
def matchWeeksAheadAt (l : List Char) : Option Nat :=
  let (ds, r1) := takeDigits l
  if ds.isEmpty then none
  else
    match expectCh '주' (dropSpaces r1) with
    | none => none
    | some r2 =>
      match dropSpaces r2 with
      | c :: _ => if c = '뒤' ∨ c = '후' then some (digitsToNat ds) else none
      | [] => none

/-- Match of `다음\s*주` at the current position. -/
def matchNextWeekAt (l : List Char) : Option Unit :=
  match expectCh '다' l with
  | none => none
  | some r1 =>
    match expectCh '음' r1 with
    | none => none
    | some r2 =>
      match expectCh '주' (dropSpaces r2) with
      | none => none
      | some _ => some ()

/-- Match of `(\d+)\s*주일\s*(뒤|후)` at the current position. -/
def matchWeeksJuilAt (l : List Char) : Option Nat :=
  let (ds, r1) := takeDigits l
  if ds.isEmpty then none
  else
    match expectCh '주' (dropSpaces r1) with
    | none => none
    | some r2 =>
      match expectCh '일' r2 with
      | none => none
      | some r3 =>
        match dropSpaces r3 with
        | c :: _ => if c = '뒤' ∨ c = '후' then some (digitsToNat ds) else none
        | [] => none

/-- The `_detect_prediction_request` return dict. -/
structure PredictionInfo where
  needs_prediction : Bool
  location : Option String
  target_date : Option Int
  weeks_ahead : Option Nat
deriving DecidableEq, Repr

/-- Embeds `_detect_prediction_request`: trigger-keyword scan over the
lower-cased message; the three week regexes in order, the first search hit
breaking the loop (a pattern with a digit group takes the captured number,
the group-less `다음주` pattern takes its default of 1); default 1 when no
pattern matched; the first curated location contained in the raw message;
`target_date = now + timedelta(weeks=weeks_ahead)` guarded by the truthiness
of `weeks_ahead`. -/
def detectPredictionRequest (now : Int) (message : String) : PredictionInfo :=
  let ml := lowerStr message.toList
  let needs := predictionKeywords.any (fun k => listSub k.toList ml)
  if ¬ needs then ⟨false, none, none, none⟩
  else
    let weeks : Nat :=
      match searchL matchWeeksAheadAt ml with
      | some n => n
      | none =>
        match searchL matchNextWeekAt ml with
        | some _ => 1
        | none =>
          match searchL matchWeeksJuilAt ml with
          | some n => n
          | none => 1
    let location := locationKeywords.find? (fun k => listSub k.toList message.toList)
    let targetDate := if weeks ≠ 0 then some (now + 7 * (weeks : Int)) else none
    ⟨true, location, targetDate, some weeks⟩

end ChatService

/-! ## ChatService: context assembler

Embeds `_build_context` (chat_service.py, lines 226-365).  The one dict
access in it that is not guarded by a `.get` default is
`coords['lat']`/`coords['lon']` (line 263), reached when
`metadata["found_by_coordinates"]` is truthy; when `metadata.get
("coordinates")` is `None` there, Python raises `TypeError`, rendered here as
`Except.error`.  Every other access uses `.get` with a default or is guarded
by the corresponding truthiness test, and is embedded accordingly. -/

namespace ChatService

/-- A retrieved document as both search services shape it: `title` is always
a string (non-null column / defaulted metadata); `source` and `doc_type` are
nullable in the legacy path. -/
structure Doc where
  id : Option Nat
  title : String
  content : String
  source : Option String
  docType : Option String
  similarity : ℚ
deriving DecidableEq, Repr

/-- The duck-typed `env_data` argument of `_build_context`: the `results`
list plus possibly-missing `statistics` and `metadata` blocks. -/
structure EnvDataIn where
  results : List DataService.ResultRow
  statistics : Option DataService.Stats
  metadata : Option DataService.QueryMetadata
deriving DecidableEq, Repr

/-- The view of a full query result as `_build_context` input. -/
def envDataIn (d : DataService.QueryData) : EnvDataIn :=
  ⟨d.results, some d.statistics, some d.metadata⟩

/-- Python truthiness of an optional string (`None` and `""` are falsy). -/
def optTruthyStr : Option String → Option String
  | some s => if s = "" then none else some s
  | none => none

/-- The document section of the context. -/
def docsSection (ragDocs : List Doc) : List String :=
  if ragDocs.isEmpty then []
  else
    "=== 관련 문서 ===" ::
      (ragDocs.enum.map
        (fun p =>
          ["\n[문서 " ++ toString (p.1 + 1) ++ "] " ++ p.2.title,
           "출처: " ++ renderOptStr p.2.source,
           "내용: " ++ String.mk (p.2.content.toList.take 300) ++ "..."])).flatten

/-- The statistics lines of the environmental-data section. -/
def statLines (stats : Option DataService.Stats) : List String :=
  let overallCount := match stats with
    | some st => st.overall.count
    | none => 0
  let byType := match stats with
    | some st => st.by_type
    | none => []
  if overallCount > 0 then
    ["\n통계:", "- 전체 데이터 개수: " ++ fmtComma overallCount ++ "개"] ++
      (if ¬ byType.isEmpty then
        "\n데이터 타입별 통계:" ::
          (byType.map
            (fun g =>
              ["\n[" ++ g.1 ++ "]", "  - 개수: " ++ fmtComma g.2.count ++ "개"] ++
                (match g.2.avg with
                 | some a => ["  - 평균값: " ++ fmtFixed 2 a]
                 | none => []) ++
                (match g.2.min with
                 | some a => ["  - 최소값: " ++ fmtFixed 2 a]
                 | none => []) ++
                (match g.2.max with
                 | some a => ["  - 최대값: " ++ fmtFixed 2 a]
                 | none => []))).flatten
      else
        (match stats.bind (fun st => st.overall.avg) with
         | some a => ["- 평균값: " ++ fmtFixed 2 a ++ " (주의: 모든 데이터 타입 혼합)"]
         | none => []) ++
          (match stats.bind (fun st => st.overall.min) with
           | some a => ["- 최소값: " ++ fmtFixed 2 a]
           | none => []) ++
          (match stats.bind (fun st => st.overall.max) with
           | some a => ["- 최대값: " ++ fmtFixed 2 a]
           | none => []))
  else []

/-- The environmental-data section (data-found and no-data branches). -/
def envSection (envData : EnvDataIn) : Except String (List String) := do
  let metadata := envData.metadata
  let totalFound := match metadata with
    | some m => m.total_found
    | none => 0
  if ¬ envData.results.isEmpty ∨ totalFound > 0 then do
    let locLines ←
      match optTruthyStr (metadata.bind (fun m => m.location)) with
      | some loc =>
        let foundFlag := match metadata with
          | some m => m.found_by_coordinates
          | none => false
        if foundFlag then
          match metadata.bind (fun m => m.coordinates) with
          | none => Except.error "TypeError: 'NoneType' object is not subscriptable"
          | some c =>
            Except.ok ["위치: " ++ loc ++ " (좌표 (" ++ renderQ c.1 ++ ", " ++
              renderQ c.2 ++ ")로 찾음)"]
        else Except.ok ["위치: " ++ loc]
      | none => Except.ok []
    let dateLines := match metadata.bind (fun m => m.date_range) with
      | some p => ["기간: " ++ p.1 ++ " ~ " ++ p.2]
      | none => []
    let typeLines := match optTruthyStr (metadata.bind (fun m => m.data_type)) with
      | some dt => ["데이터 타입: " ++ dt]
      | none => []
    let sampleLines :=
      if ¬ envData.results.isEmpty then
        "\n최근 데이터 샘플:" ::
          (envData.results.take 5).map
            (fun r =>
              "- " ++ renderOptStr r.date ++ ": " ++ renderOptQ r.value ++ " " ++
                renderOptStr r.unit ++ " (" ++ r.location ++ ")")
      else []
    .ok ("\n=== 환경 데이터 ===" ::
      (locLines ++ dateLines ++ typeLines ++ statLines envData.statistics ++ sampleLines))
  else if totalFound = 0 then
    let loc := optTruthyStr (metadata.bind (fun m => m.location))
    let dt := optTruthyStr (metadata.bind (fun m => m.data_type))
    let locReq := match loc with
      | some l => ["요청한 위치: " ++ l]
      | none => []
    let dtReq := match dt with
      | some d => ["요청한 데이터 타입: " ++ d]
      | none => []
    let avail := match loc with
      | some l =>
        ["\n" ++ l ++ " 위치에서 사용 가능한 데이터 타입:",
         "(데이터베이스에 저장된 다른 데이터 타입을 확인하려면 위치명만으로 조회해보세요)"]
      | none => []
    -- metadata.get("similar_locations") — `query` never sets this key, so
    -- the lookup yields None and the similar-locations block never renders.
    .ok ("\n=== 환경 데이터 ===" :: (locReq ++ dtReq ++
      ["⚠ 해당 조건의 데이터를 데이터베이스에서 찾을 수 없습니다.",
       "이는 해당 위치에 해당 데이터 타입이 측정되지 않았거나, 데이터가 로드되지 않았을 수 있습니다."] ++
      avail))
  else .ok []

/-- The forecast-result section. -/
def predSection (predictionResult : Option PredictionService.PredictOutput) :
    List String :=
  match predictionResult with
  | none => []
  | some p =>
    "\n=== 예측 결과 ===" ::
      (if p.success then
        let preds := p.predictions.getD []
        let alerts := preds.foldr
          (fun pv acc =>
            if (listSub "cyano".toList (lowerStr pv.1.toList) ∨
                listSub "녹조".toList pv.1.toList) ∧ pv.2 > 1000 then
              (pv.1 ++ "가 높은 수준(" ++ fmtFixed 2 pv.2 ++ ")으로 예측됩니다.") :: acc
            else acc)
          []
        ["위치: " ++ p.location,
         "예측 날짜: " ++ (match p.target_date with
           | some s => s
           | none => "알 수 없음")] ++
          (if ¬ preds.isEmpty then
            "\n녹조 관련 예측값:" ::
              preds.map (fun pv => "  - " ++ pv.1 ++ ": " ++ fmtFixed 4 pv.2)
          else []) ++
          (if ¬ alerts.isEmpty then
            "\n⚠ 예측 기반 경고:" :: alerts.map (fun a => "  - " ++ a)
          else [])
      else
        ["예측 실패: " ++ (match p.error with
          | some e => e
          | none => "알 수 없는 오류")])

/-- Embeds `_build_context`: the three sections in order, joined with
newlines (`"\n".join` of the empty list is already `""`). -/
def buildContext (ragDocs : List Doc) (envData : EnvDataIn)
    (predictionResult : Option PredictionService.PredictOutput) :
    Except String String := do
  let envParts ← envSection envData
  .ok (String.intercalate "\n"
    (docsSection ragDocs ++ envParts ++ predSection predictionResult))

end ChatService

/-! ## ChatService: suggestions, prediction wrapper and the orchestrator

Embeds `_generate_suggestions`, `_perform_prediction` and `process_message`
(chat_service.py, lines 27-97, 183-224, 367-419).  The collaborators the
orchestrator awaits are parameters: each is the outcome (`Except`) of the
corresponding call, an `Except.error` standing for a raised exception. -/

namespace ChatService

/-- Embeds `env_data.get("statistics", {}).get("count", 0)`: a dict lookup
of the key `"count"` in the statistics block, defaulting to 0. -/
def statsCount (statistics : DataService.Stats) : JVal :=
  jgetD statistics.toJVal "count" (.num 0)

/-- Python `value > 0` on the looked-up count. -/
def jNumGtZero : JVal → Bool
  | .num q => 0 < q
  | _ => false

/-- The per-document guideline check of `_generate_suggestions`
(`"가이드라인" in doc.get("title", "") or "가이드라인" in doc.get("source",
"")`): the left operand short-circuits, and a present-but-`None` `source`
makes the right operand raise `TypeError`. -/
def suggestFromDoc (d : Doc) : Except String Bool :=
  if strIn "가이드라인" d.title then .ok true
  else
    match d.source with
    | some s => .ok (strIn "가이드라인" s)
    | none => .error "TypeError: argument of type 'NoneType' is not iterable"

/-- The guideline suggestions contributed by the first two documents (the
source loop appends once per matching document). -/
def docSuggestions : List Doc → Except String (List String)
  | [] => .ok []
  | d :: rest => do
    let hit ← suggestFromDoc d
    let others ← docSuggestions rest
    .ok ((if hit then ["가이드라인을 자세히 설명해주세요"] else []) ++ others)

/-- Embeds `_generate_suggestions`: the data-driven, document-driven,
prediction-driven and default suggestion rules in source order, capped at
three. -/
def generateSuggestions (ragDocs : List Doc) (envData : DataService.QueryData)
    (predictionResult : Option PredictionService.PredictOutput) :
    Except String (List String) := do
  let dataPart :=
    if jNumGtZero (statsCount envData.statistics) then
      (if envData.metadata.data_type = some "algae" then
        ["녹조 농도가 높을 때 대응 방법을 알려주세요"]
      else []) ++
        (match optTruthyStr envData.metadata.location with
         | some loc => [loc ++ "의 다른 기간 데이터도 보여주세요"]
         | none => [])
    else []
  let docPart ← docSuggestions (ragDocs.take 2)
  let predPart :=
    match predictionResult with
    | some p =>
      if p.success then ["다른 위치의 예측도 해주세요", "더 먼 미래의 예측도 가능한가요?"]
      else []
    | none => []
  let noPredPart :=
    match predictionResult with
    | some _ => []
    | none =>
      match optTruthyStr envData.metadata.location with
      | some loc => [loc ++ "의 다음주 예측을 해주세요"]
      | none => []
  let suggestions := dataPart ++ docPart ++ predPart ++ noPredPart
  let final :=
    if suggestions.isEmpty then
      ["과거 데이터를 그래프로 보여주세요", "예측 모델을 사용할 수 있나요?"]
    else suggestions
  .ok (final.take 3)

/-- Embeds `_perform_prediction`: resolve the location (explicit in the
message first, then the query metadata), skip silently (`None`) when neither
is truthy, and absorb any exception of the awaited `predict` call
(`except Exception: return None`). -/
def performPrediction (envData : DataService.QueryData) (info : PredictionInfo)
    (predictCall : String → Except String PredictionService.PredictOutput) :
    Option PredictionService.PredictOutput :=
  let location :=
    match optTruthyStr info.location with
    | some l => some l
    | none => optTruthyStr envData.metadata.location
  match location with
  | none => none
  | some loc =>
    match predictCall loc with
    | .ok r => some r
    | .error _ => none

/-- Embeds `LLMService.generate_answer`: the OpenAI call is wrapped in
`try/except` and failures come back as an inline error string, so the
collaborator never raises. -/
def generateAnswer (llmOutcome : Except String String) : String :=
  match llmOutcome with
  | .ok s => s
  | .error e => "오류가 발생했습니다: " ++ e

/-- The `metadata` block of a `ChatResponse`. -/
structure ChatResponseMeta where
  rag_documents_count : Nat
  data_results_count : JVal
  prediction_performed : Bool
deriving Repr

/-- The `ChatResponse` fields `process_message` fills. -/
structure ChatResponse where
  answer : String
  suggestions : List String
  data : Option DataService.QueryData
  metadata : ChatResponseMeta
deriving Repr

/-- The outcomes of the collaborator calls `process_message` awaits, each
an `Except` whose `error` is a raised exception; the LangChain search and
`predict` take the shape of the call the orchestrator makes. -/
structure Collaborators where
  ragLangchainAttempt : Except String (List Doc)
  ragLegacy : Except String (List Doc)
  dataQuery : Except String DataService.QueryData
  predictCall : String → Except String PredictionService.PredictOutput
  llm : String → Except String String

/-- Embeds `RAGServiceLangChain.search`: the whole body is wrapped in
`try/except Exception: return []`. -/
def ragLangchainSearch (attempt : Except String (List Doc)) : List Doc :=
  match attempt with
  | .ok docs => docs
  | .error _ => []

/-- Embeds `ChatService.process_message`: intent detection, the two
document searches (LangChain result preferred when non-empty), the
structured query, the conditional prediction, context assembly, the LLM
call and response formatting.  The body is guarded only by `try/finally`
(session close) — there is no `except`, so any exception raised by the
legacy document search, the structured query or the context assembler
propagates to the caller. -/
def processMessage (now : Int) (message : String) (c : Collaborators) :
    Except String ChatResponse := do
  let info := detectPredictionRequest now message
  let ragLangchainDocs := ragLangchainSearch c.ragLangchainAttempt
  let ragLegacyDocs ← c.ragLegacy
  let ragDocs := if ragLangchainDocs.isEmpty then ragLegacyDocs else ragLangchainDocs
  let envData ← c.dataQuery
  let predictionResult :=
    if info.needs_prediction then performPrediction envData info c.predictCall
    else none
  let context ← buildContext ragDocs (envDataIn envData) predictionResult
  let answer := generateAnswer (c.llm context)
  let suggestions ← generateSuggestions ragDocs envData predictionResult
  .ok
    { answer := answer
      suggestions := suggestions
      data := if envData.results.isEmpty then none else some envData
      metadata :=
        { rag_documents_count := ragDocs.length
          data_results_count := statsCount envData.statistics
          prediction_performed := info.needs_prediction } }

end ChatService

/-! ## Concrete instances used by the closed theorems

Fixture values instantiating the artifact/collaborator parameters of the
embedded services at small concrete inputs. -/

/-- A small model configuration: 7-week sequence, one feature. -/
def exCfg : PredictionService.PredConfig := ⟨7, ["pH"], ["pH"], false⟩

/-- A model configuration with two features and the log transform on. -/
def exCfg2 : PredictionService.PredConfig := ⟨7, ["pH", "DO"], ["pH"], true⟩

/-- Seven records for location `다사`, one per weekly window before day 0,
all of type `pH` with value 2. -/
def exDb : List PredictionService.PRecord :=
  (PredictionService.offsets 7).map
    (fun o => ⟨"다사", -(7 * (o : Int)), "pH", some 2⟩)

/-- A concrete week-of-year keying function. -/
def exWeekKey : Int → String := fun d => "week" ++ toString d

/-- An encoder that knows every category. -/
def exEncOk : String → Except PredictionService.PyErr Nat := fun _ => .ok 1

/-- An encoder that raises `ValueError` (an unseen category). -/
def exTEncValueError : String → Except PredictionService.PyErr Nat :=
  fun _ => .error (.valueError "y contains previously unseen labels")

/-- A forward pass that succeeds with one output. -/
def exInferOk : List (List ℚ) → Nat → Nat → Except PredictionService.PyErr (List ℚ) :=
  fun _ _ _ => .ok [3]

/-- A forward pass that raises. -/
def exInferBoom : List (List ℚ) → Nat → Nat → Except PredictionService.PyErr (List ℚ) :=
  fun _ _ _ => .error (.other "boom")

/-- The curated keyword dictionary of `_load_data_type_mapping`, verbatim
from the source literal (the entries appended from the artifact's
`feature_order` are absent from the repository and hence not included). -/
def dataTypeMappingLiteral : List (String × String) :=
  [("수질", "water_quality"), ("녹조", "algae"), ("조류", "algae"),
   ("수문", "hydrology"), ("기상", "weather"), ("온도", "수온(℃)"),
   ("수온", "수온(℃)"), ("DO", "DO(㎎/L)"), ("용존산소", "DO(㎎/L)"),
   ("TN", "TN"), ("총질소", "TN"), ("TP", "TP"), ("총인", "TP"),
   ("유해남조류", "유해남조류 세포수 (cells/㎖)"), ("Microcystis", "Microcystis"),
   ("Anabaena", "Anabaena"), ("Oscillatoria", "Oscillatoria"),
   ("Aphanizomenon", "Aphanizomenon"), ("pH", "pH"), ("ph", "pH"),
   ("chl-a", "Chl-a (㎎/㎥)"), ("chl a", "Chl-a (㎎/㎥)"),
   ("클로로필", "Chl-a (㎎/㎥)"), ("클로로필-a", "Chl-a (㎎/㎥)"),
   ("클로로필a", "Chl-a (㎎/㎥)"), ("chlorophyll", "Chl-a (㎎/㎥)"),
   ("chlorophyll-a", "Chl-a (㎎/㎥)")]

/-- A small gazetteer of known locations. -/
def exKnownLocations : List String := ["강정고령보_다사", "강정고령보", "다사"]

/-- One stored measurement row: location `다사`, type `pH`, value 7. -/
def exRecPH : DataService.EDRecord :=
  ⟨1, "다사", none, none, ⟨2024, 5, 1⟩, none, "pH", some 7, none, none, some "pH"⟩

/-- The query result for an unconstrained question over an empty table. -/
def exEnvEmpty : DataService.QueryData :=
  ⟨[], ⟨⟨0, none, none, none⟩, []⟩, ⟨none, none, none, 0, false, none⟩⟩

/-- Collaborators whose structured query raises (a lost database
connection); everything else succeeds. -/
def exCollabDataRaises : ChatService.Collaborators :=
  { ragLangchainAttempt := .ok []
    ragLegacy := .ok []
    dataQuery := .error "OperationalError: connection lost"
    predictCall := fun _ => .ok (PredictionService.insufficientFailure "다사" 0)
    llm := fun _ => .ok "answer" }

/-- Collaborators where the LangChain search and the prediction call raise
but the legacy search and the structured query succeed. -/
def exCollabAbsorbed : ChatService.Collaborators :=
  { ragLangchainAttempt := .error "vector store unavailable"
    ragLegacy := .ok []
    dataQuery := .ok exEnvEmpty
    predictCall := fun _ => .error "prediction crashed"
    llm := fun _ => .ok "ok" }

/-- A legacy document row whose nullable `source` column is NULL and whose
title does not contain `가이드라인` (as `index_document` can create: its
`source` parameter defaults to `None`). -/
def exDocNullSource : ChatService.Doc :=
  ⟨some 1, "수질 문서", "내용", none, none, 1⟩

/-- Collaborators where the legacy search and the structured query both
return normally, but the returned document row carries a NULL `source`. -/
def exCollabNullSource : ChatService.Collaborators :=
  { ragLangchainAttempt := .ok []
    ragLegacy := .ok [exDocNullSource]
    dataQuery := .ok exEnvEmpty
    predictCall := fun _ => .ok (PredictionService.insufficientFailure "다사" 0)
    llm := fun _ => .ok "a" }

/-- Collaborators where every call succeeds over the empty database. -/
def exCollabAllOk : ChatService.Collaborators :=
  { ragLangchainAttempt := .ok []
    ragLegacy := .ok []
    dataQuery := .ok exEnvEmpty
    predictCall := fun _ => .ok (PredictionService.insufficientFailure "다사" 0)
    llm := fun _ => .ok "a" }

/-- The response `process_message` produces for message `"hi"` under
`exCollabAllOk`. -/
def exRespAllOk : ChatService.ChatResponse :=
  { answer := "a"
    suggestions := ["과거 데이터를 그래프로 보여주세요", "예측 모델을 사용할 수 있나요?"]
    data := none
    metadata :=
      { rag_documents_count := 0
        data_results_count := .num 0
        prediction_performed := false } }

/-! ## Shared helper lemmas -/

/-- An offset whose window is empty makes the per-week loop return `None`. -/
theorem buildRows_none_of_empty {cfg : PredictionService.PredConfig}
    {db : List PredictionService.PRecord} {loc : String} {target : Int}
    {o : ℕ} {os : List ℕ} (ho : o ∈ os)
    (hemp : PredictionService.windowRecords db loc target o = []) :
    PredictionService.buildRows cfg db loc target os = none := by
  induction os with
  | nil => cases ho
  | cons a rest ih =>
    rcases List.mem_cons.mp ho with rfl | hmem
    · simp [PredictionService.buildRows, hemp]
    · by_cases ha : PredictionService.windowRecords db loc target a = []
      · simp [PredictionService.buildRows, ha]
      · simp [PredictionService.buildRows, List.isEmpty_iff, ha, ih hmem]

/-- Offsets 1..n are exactly the members of `offsets n`. -/
theorem mem_offsets {o n : ℕ} (h1 : 1 ≤ o) (h2 : o ≤ n) :
    o ∈ PredictionService.offsets n := by
  refine List.mem_map.mpr ⟨n - o, List.mem_range.mpr ?_, ?_⟩ <;> omega

/-- When every window is nonempty, the per-week loop returns all weekly
feature vectors in offset order. -/
theorem buildRows_of_nonempty {cfg : PredictionService.PredConfig}
    {db : List PredictionService.PRecord} {loc : String} {target : Int}
    {os : List ℕ}
    (h : ∀ o ∈ os, PredictionService.windowRecords db loc target o ≠ []) :
    PredictionService.buildRows cfg db loc target os =
      some (os.map (fun o =>
        PredictionService.weekRow cfg (PredictionService.windowRecords db loc target o))) := by
  induction os with
  | nil => rfl
  | cons a rest ih =>
    have ha := h a (List.mem_cons_self a rest)
    simp [PredictionService.buildRows, List.isEmpty_iff, ha,
      ih (fun o ho => h o (List.mem_cons_of_mem a ho))]

/-! ## Claim C2 -/

/-- C2: for every location and target date, if at least one of the 7 weekly
windows preceding the target date contains zero matching records in total,
`predict` returns the structured insufficient-data failure — success is
false, the error is the insufficient-data message — without raising and
independently of the encoders and of the model forward pass (which are
universally quantified and absent from the result), however populated the
other windows are. -/
theorem C2_empty_week_insufficient
    (cfg : PredictionService.PredConfig) (scaler : List ℚ → List ℚ)
    (log1p expm1 : ℚ → ℚ) (weekKey : Int → String)
    (tEnc sEnc : String → Except PredictionService.PyErr Nat)
    (infer : List (List ℚ) → Nat → Nat → Except PredictionService.PyErr (List ℚ))
    (db : List PredictionService.PRecord) (loc : String) (target : Int)
    (h7 : cfg.seqLen = 7) (o : ℕ) (h1 : 1 ≤ o) (h2 : o ≤ 7)
    (hemp : PredictionService.windowRecords db loc target o = []) :
    PredictionService.predict cfg scaler log1p expm1 weekKey tEnc sEnc infer db loc target =
      { success := false
        error := some "예측을 위한 충분한 과거 데이터가 없습니다."
        location := loc
        target_date := some (PredictionService.dayIso target)
        predictions := none
        modelMeta := none } := by
  have hb : PredictionService.buildRows cfg db loc target
      (PredictionService.offsets cfg.seqLen) = none :=
    buildRows_none_of_empty (by rw [h7]; exact mem_offsets h1 h2) hemp
  simp [PredictionService.predict, PredictionService.predictUnchecked,
    PredictionService.prepareInputSequence, hb, PredictionService.insufficientFailure]

/-- C2 witness: over an empty database every window is empty, and `predict`
at location `다사`, target day 0, returns exactly the insufficient-data
failure. -/
theorem C2_empty_week_insufficient_witness :
    PredictionService.predict exCfg id id id exWeekKey exEncOk exEncOk exInferOk [] "다사" 0 =
      { success := false
        error := some "예측을 위한 충분한 과거 데이터가 없습니다."
        location := "다사"
        target_date := some (PredictionService.dayIso 0)
        predictions := none
        modelMeta := none } :=
  C2_empty_week_insufficient exCfg id id id exWeekKey exEncOk exEncOk exInferOk [] "다사" 0
    rfl 1 (by decide) (by decide) rfl

/-! ## Claim C5 -/

/-- C5: for every weekly window that contains at least one record (all
windows nonempty, so the sequence is not rejected), a canonical feature with
no non-null matching values in some window `o` is imputed: the input
sequence is built, its post-log pre-scale entry for that feature in that
week is exactly 0 (given only that the log transform fixes 0, as `np.log1p`
does), and every entry of that week is the log of its own feature's weekly
average, so the remaining features are unaffected. -/
theorem C5_missing_feature_imputed
    (cfg : PredictionService.PredConfig) (scaler : List ℚ → List ℚ)
    (log1p : ℚ → ℚ) (weekKey : Int → String)
    (db : List PredictionService.PRecord) (loc : String) (target : Int)
    (var : String) (o : ℕ)
    (hlog : log1p 0 = 0) (happ : cfg.log1pApplied = true)
    (hall : ∀ w ∈ PredictionService.offsets cfg.seqLen,
      PredictionService.windowRecords db loc target w ≠ [])
    (ho : o ∈ PredictionService.offsets cfg.seqLen)
    (hmiss : PredictionService.matchingValues
      (PredictionService.windowRecords db loc target o) var = []) :
    PredictionService.prepareInputSequence cfg scaler log1p weekKey db loc target =
      some (((PredictionService.offsets cfg.seqLen).map
        (fun w => (PredictionService.weekRow cfg
          (PredictionService.windowRecords db loc target w)).map log1p)).map scaler,
        weekKey (target - 7), loc)
    ∧ (∀ (j : ℕ), cfg.featureOrder[j]? = some var →
        ((PredictionService.weekRow cfg
          (PredictionService.windowRecords db loc target o)).map log1p)[j]? = some 0)
    ∧ (∀ (j : ℕ) (v : String), cfg.featureOrder[j]? = some v →
        ((PredictionService.weekRow cfg
          (PredictionService.windowRecords db loc target o)).map log1p)[j]? =
          some (log1p (PredictionService.weekValue
            (PredictionService.windowRecords db loc target o) v))) := by
  have _ := ho
  refine ⟨?_, ?_, ?_⟩
  · have hb := @buildRows_of_nonempty cfg db loc target _ hall
    simp [PredictionService.prepareInputSequence, hb, happ, List.map_map,
      Function.comp]
  · intro j hj
    simp [PredictionService.weekRow, List.getElem?_map, hj, Function.comp,
      PredictionService.weekValue, hmiss, hlog]
  · intro j v hj
    simp [PredictionService.weekRow, List.getElem?_map, hj, Function.comp]

/-- C5 witness: with features `["pH", "DO"]`, seven weekly `pH`-only
records, and the identity standing for the log transform, the window at
offset 1 has no `DO` values and the post-log entry at feature index 1 is
exactly 0. -/
theorem C5_missing_feature_imputed_witness :
    ((PredictionService.weekRow exCfg2
      (PredictionService.windowRecords exDb "다사" 0 1)).map id)[1]? = some 0 :=
  (C5_missing_feature_imputed exCfg2 id id exWeekKey exDb "다사" 0 "DO" 1
    rfl rfl (by decide) (by decide) (by decide)).2.1 1 rfl

/-! ## Claim C4 -/

/-- C4 counterexample: a `ValueError` raised during temporal-category
encoding (here: on the very context string `predict` passes) is caught by
the inner handler and replaced by default index 0 — the run then returns a
success result, not the failure shape with the exception message that the
claim requires for every exception during category encoding. -/
theorem C4_encoding_valueerror_counterexample :
    exTEncValueError (exWeekKey (0 - 7)) =
      .error (.valueError "y contains previously unseen labels") ∧
    (PredictionService.predict exCfg id id id exWeekKey exTEncValueError exEncOk
      exInferOk exDb "다사" 0).success = true ∧
    (PredictionService.predict exCfg id id id exWeekKey exTEncValueError exEncOk
      exInferOk exDb "다사" 0).error = none := by
  refine ⟨rfl, ?_, ?_⟩ <;> rfl

/-- C4 amended: `predict` never raises past its boundary.  A `ValueError`
during category encoding is caught by the inner handler, degrades to the
default index 0 and prediction proceeds to a success result; any exception
raised by the model forward pass — and any exception other than the
encoders' `ValueError` that escapes the body — is caught by the outer
handler and converted into the failure shape
`{success: false, error: str(e), location, target_date}`, the same shape as
the insufficient-data failure. -/
theorem C4_boundary_amended
    (cfg : PredictionService.PredConfig) (scaler : List ℚ → List ℚ)
    (log1p expm1 : ℚ → ℚ) (weekKey : Int → String)
    (tEnc sEnc : String → Except PredictionService.PyErr Nat)
    (infer : List (List ℚ) → Nat → Nat → Except PredictionService.PyErr (List ℚ))
    (db : List PredictionService.PRecord) (loc : String) (target : Int) :
    (∀ xs tc sc m k ps,
        PredictionService.prepareInputSequence cfg scaler log1p weekKey db loc target =
          some (xs, tc, sc) →
        tEnc tc = .error (.valueError m) → sEnc sc = .ok k → infer xs 0 k = .ok ps →
        PredictionService.predict cfg scaler log1p expm1 weekKey tEnc sEnc infer db loc target =
          { success := true
            error := none
            location := loc
            target_date := some (PredictionService.dayIso target)
            predictions := some (cfg.cyanoVars.zip
              (if cfg.log1pApplied then ps.map expm1 else ps))
            modelMeta := some ("TimeSeriesTransformer", cfg.seqLen, cfg.log1pApplied) })
    ∧ (∀ xs tc sc te se e,
        PredictionService.prepareInputSequence cfg scaler log1p weekKey db loc target =
          some (xs, tc, sc) →
        PredictionService.encodeCategory tEnc tc = .ok te →
        PredictionService.encodeCategory sEnc sc = .ok se →
        infer xs te se = .error e →
        PredictionService.predict cfg scaler log1p expm1 weekKey tEnc sEnc infer db loc target =
          PredictionService.failureShape e.msg loc target)
    ∧ (∀ e,
        PredictionService.predictUnchecked cfg scaler log1p expm1 weekKey tEnc sEnc infer
          db loc target = .error e →
        PredictionService.predict cfg scaler log1p expm1 weekKey tEnc sEnc infer db loc target =
          PredictionService.failureShape e.msg loc target) := by
  refine ⟨?_, ?_, ?_⟩
  · intro xs tc sc m k ps hprep htEnc hsEnc hinf
    simp [PredictionService.predict, PredictionService.predictUnchecked, hprep,
      PredictionService.predictBody, PredictionService.encodeCategory, htEnc, hsEnc, hinf,
      Bind.bind, Except.bind]
  · intro xs tc sc te se e hprep hte hse hinf
    simp [PredictionService.predict, PredictionService.predictUnchecked, hprep,
      PredictionService.predictBody, hte, hse, hinf, Bind.bind, Except.bind]
  · intro e h
    simp [PredictionService.predict, h]

/-- C4 witness: over the seven-record fixture database a raising forward
pass yields exactly the failure shape with the exception message. -/
theorem C4_boundary_amended_witness :
    PredictionService.predict exCfg id id id exWeekKey exEncOk exEncOk exInferBoom
      exDb "다사" 0 = PredictionService.failureShape "boom" "다사" 0 := by
  have hall : ∀ w ∈ PredictionService.offsets exCfg.seqLen,
      PredictionService.windowRecords exDb "다사" 0 w ≠ [] := by decide
  have hb := @buildRows_of_nonempty exCfg exDb "다사" 0 _ hall
  have hprep : PredictionService.prepareInputSequence exCfg id id exWeekKey exDb "다사" 0 =
      some (((PredictionService.offsets exCfg.seqLen).map (fun o =>
          PredictionService.weekRow exCfg (PredictionService.windowRecords exDb "다사" 0 o))),
        exWeekKey (0 - 7), "다사") := by
    unfold PredictionService.prepareInputSequence
    rw [hb]
    simp [exCfg]
  exact (C4_boundary_amended exCfg id id id exWeekKey exEncOk exEncOk exInferBoom
      exDb "다사" 0).2.1 _ _ _ 1 1 (.other "boom") hprep rfl rfl rfl

/-! ## Claim C6 -/

/-- C6 counterexample: with today = 2024-02-29 (a leap day) and the text
`과거 1년 데이터`, the `과거 N년` handler calls `date(2023, 2, 29)`, which
raises `ValueError` — the extractor does not return the inclusive range
(today minus N years, today) for every value of today's date. -/
theorem C6_past_years_counterexample :
    DataService.parseDateRange ⟨2024, 2, 29⟩ "과거 1년 데이터".toList =
      .error "ValueError: day is out of range for month" := by
  rfl

/-- C6 amended: for every text in which no higher-priority date pattern
(`YYYY년 MM월`) matches and `과거 N년` matches with capture `N`, and for
every today's date such that `(today.year − N, today.month, today.day)` is a
valid calendar date, the extractor returns the inclusive range from that
start date to today; when the start date is invalid (today is Feb 29 and the
target year is not a leap year) the date constructor's `ValueError`
propagates instead. -/
theorem C6_past_years_amended (q : List Char) (today : Date) (N : Nat)
    (hym : searchL DataService.matchYearMonthAt q = none)
    (hpy : searchL DataService.matchPastYearsAt q = some N)
    (hvalid : isValidDate (today.year - N) today.month today.day = true) :
    DataService.parseDateRange today q =
      .ok (some (⟨today.year - N, today.month, today.day⟩, today)) := by
  simp [DataService.parseDateRange, hym, hpy, DataService.parsePastYears,
    mkDate, hvalid, Bind.bind, Except.bind, Except.map]

/-- C6 witness: for the text `과거 2년 수질` and today = 2025-06-01, the
extractor returns (2023-06-01, 2025-06-01). -/
theorem C6_past_years_amended_witness :
    DataService.parseDateRange ⟨2025, 6, 1⟩ "과거 2년 수질".toList =
      .ok (some (⟨2023, 6, 1⟩, ⟨2025, 6, 1⟩)) := by
  have h := C6_past_years_amended "과거 2년 수질".toList ⟨2025, 6, 1⟩ 2 rfl rfl (by decide)
  norm_num at h
  exact h

/-! ## Claim C9 -/

/-- A boxed-guard step: if an `if`-guarded coordinate pair (with an
alternative that itself only yields in-box pairs) produced a result, the
result is in the box. -/
theorem ifBox_some {a b la lo : ℚ} {alt : Option (ℚ × ℚ)}
    (halt : ∀ x y, alt = some (x, y) → 30 ≤ x ∧ x ≤ 45 ∧ 120 ≤ y ∧ y ≤ 135)
    (h : (if 30 ≤ a ∧ a ≤ 45 ∧ 120 ≤ b ∧ b ≤ 135 then some (a, b) else alt) =
      some (la, lo)) :
    30 ≤ la ∧ la ≤ 45 ∧ 120 ≤ lo ∧ lo ≤ 135 := by
  split_ifs at h with hg
  · obtain ⟨rfl, rfl⟩ : a = la ∧ b = lo := by simpa using h
    exact hg
  · exact halt la lo h

/-- C9: coordinate parsing yields a pair only inside the bounding box
lat ∈ [30, 45], lon ∈ [120, 135]; parsing `(37.0, 128.4)` yields
(37.0, 128.4), and parsing `(10.0, 200.0)` yields no match. -/
theorem C9_coordinates_bounding_box :
    (∀ (q : List Char) (la lo : ℚ), DataService.parseCoordinates q = some (la, lo) →
      30 ≤ la ∧ la ≤ 45 ∧ 120 ≤ lo ∧ lo ≤ 135) ∧
    DataService.parseCoordinates "(37.0, 128.4)".toList = some (37, 128.4) ∧
    DataService.parseCoordinates "(10.0, 200.0)".toList = none := by
  refine ⟨?_, ?_, ?_⟩
  case refine_2 =>
    simp [DataService.parseCoordinates, searchL, DataService.matchCoordPairAt,
      DataService.matchLatLonAt, DataService.matchNumberAt, DataService.matchLonAt,
      expectCh, takeDigits, dropSpaces, digitsToNat, digitVal, isDigitCh, isSpaceCh]
    norm_num
  case refine_3 =>
    simp [DataService.parseCoordinates, searchL, DataService.matchCoordPairAt,
      DataService.matchLatLonAt, DataService.matchNumberAt, DataService.matchLonAt,
      expectCh, takeDigits, dropSpaces, digitsToNat, digitVal, isDigitCh, isSpaceCh]
    norm_num
  intro q la lo h
  have halt : ∀ x y,
      (match searchL DataService.matchLatLonAt q with
       | some (a2, b2) =>
         if 30 ≤ a2 ∧ a2 ≤ 45 ∧ 120 ≤ b2 ∧ b2 ≤ 135 then some (a2, b2) else none
       | none => none) = some (x, y) →
      30 ≤ x ∧ x ≤ 45 ∧ 120 ≤ y ∧ y ≤ 135 := by
    intro x y hxy
    rcases h2 : searchL DataService.matchLatLonAt q with _ | ⟨c, d⟩
    · rw [h2] at hxy
      cases hxy
    · simp only [h2, Option.ite_none_right_eq_some, Option.some.injEq,
        Prod.mk.injEq] at hxy
      obtain ⟨hg2, rfl, rfl⟩ := hxy
      exact hg2
  unfold DataService.parseCoordinates at h
  rcases h1 : searchL DataService.matchCoordPairAt q with _ | ⟨a, b⟩ <;> rw [h1] at h
  · exact halt la lo h
  · exact ifBox_some halt h

/-- C9 witness: the invariant applied at the concrete in-box parse. -/
theorem C9_coordinates_bounding_box_witness :
    30 ≤ (37 : ℚ) ∧ (37 : ℚ) ≤ 45 ∧ 120 ≤ (128.4 : ℚ) ∧ (128.4 : ℚ) ≤ 135 :=
  C9_coordinates_bounding_box.1 "(37.0, 128.4)".toList 37 128.4
    C9_coordinates_bounding_box.2.1

/-! ## Claim C8 -/

/-- C8: the message `강정고령보 다음주 예측해줘` is detected as a prediction
request for location `강정고령보` one week ahead; in general, whenever a
forecast-trigger keyword is present, a leftmost `N주 뒤/후` match yields
`weeks_ahead = N`, and when none of the three week patterns matches anywhere
`weeks_ahead` defaults to 1. -/
theorem C8_intent_detection :
    (∀ now : Int, ChatService.detectPredictionRequest now "강정고령보 다음주 예측해줘" =
      { needs_prediction := true
        location := some "강정고령보"
        target_date := some (now + 7)
        weeks_ahead := some 1 }) ∧
    (∀ (now : Int) (msg : String) (n : Nat),
      (ChatService.predictionKeywords.any
        (fun k => listSub k.toList (lowerStr msg.toList))) = true →
      searchL ChatService.matchWeeksAheadAt (lowerStr msg.toList) = some n →
      (ChatService.detectPredictionRequest now msg).weeks_ahead = some n) ∧
    (∀ (now : Int) (msg : String),
      (ChatService.predictionKeywords.any
        (fun k => listSub k.toList (lowerStr msg.toList))) = true →
      searchL ChatService.matchWeeksAheadAt (lowerStr msg.toList) = none →
      searchL ChatService.matchNextWeekAt (lowerStr msg.toList) = none →
      searchL ChatService.matchWeeksJuilAt (lowerStr msg.toList) = none →
      (ChatService.detectPredictionRequest now msg).weeks_ahead = some 1) := by
  refine ⟨?_, ?_, ?_⟩
  · intro now
    rfl
  · intro now msg n hneeds hpat
    simp only [ChatService.detectPredictionRequest, hneeds, hpat]
    simp
  · intro now msg hneeds h1 h2 h3
    simp only [ChatService.detectPredictionRequest, hneeds, h1, h2, h3]
    simp

/-- C8 witness: the general `N주 뒤/후` rule applied to the concrete message
`구미보 3주 후 예측해줘` yields three weeks ahead. -/
theorem C8_intent_detection_witness :
    (ChatService.detectPredictionRequest 0 "구미보 3주 후 예측해줘").weeks_ahead = some 3 :=
  C8_intent_detection.2.1 0 "구미보 3주 후 예측해줘" 3 (by decide) (by decide)

/-! ## Claim C3 -/

/-- C3: evaluation of the code at the failing input.  For the question
`show data` no data-type keyword matches (`_parse_data_type` yields `None`),
and no date, coordinate or location filter applies; over a table holding one
`pH` row with a non-null value, the query matches that row, the statistics
loop `for data_type, count, ... in type_stats:` rebinds the local
`data_type`, and the metadata block therefore reports `data_type = "pH"`
instead of the `None` that was extracted from the question — the metadata no
longer describes the applied filters. -/
theorem C3_metadata_data_type_shadowed :
    DataService.parseDataType dataTypeMappingLiteral "show data".toList = none ∧
    (DataService.query dataTypeMappingLiteral exKnownLocations ⟨2024, 6, 1⟩
      "show data" [exRecPH]).map (fun d => d.metadata.data_type) =
      .ok (some "pH") := by
  exact ⟨rfl, rfl⟩

/-! ## Claim C10 -/

/-- C10: for every processed message whose structured data came from the
query engine, the response metadata field `data_results_count` is 0: the
orchestrator looks up the key `"count"` in the statistics dict, but that
dict has exactly the keys `"overall"` and `"by_type"`, so the default 0 is
always taken, whatever and however many rows matched. -/
theorem C10_data_results_count_zero
    (now : Int) (msg : String) (c : ChatService.Collaborators)
    (mapping : List (String × String)) (locs : List String) (today : Date)
    (question : String) (db : List DataService.EDRecord)
    (env : DataService.QueryData) (resp : ChatService.ChatResponse)
    (hq : DataService.query mapping locs today question db = .ok env)
    (hc : c.dataQuery = .ok env)
    (hp : ChatService.processMessage now msg c = .ok resp) :
    resp.metadata.data_results_count = .num 0 := by
  have _ := hq
  unfold ChatService.processMessage at hp
  simp only [Bind.bind, Except.bind, hc] at hp
  split at hp
  · exact Except.noConfusion hp
  · split at hp
    · exact Except.noConfusion hp
    · split at hp
      · exact Except.noConfusion hp
      · injection hp with h
        subst h
        rfl

/-- C10 witness: a full successful run over the empty database reports
`data_results_count = 0`. -/
theorem C10_data_results_count_zero_witness :
    ∃ resp, ChatService.processMessage 0 "hi" exCollabAllOk = .ok resp ∧
      resp.metadata.data_results_count = .num 0 :=
  ⟨exRespAllOk, by rfl,
    C10_data_results_count_zero 0 "hi" exCollabAllOk [] [] ⟨2024, 1, 1⟩ "hi" []
      exEnvEmpty exRespAllOk (by rfl) (by rfl) (by rfl)⟩

/-! ## Helper lemmas for the context assembler and the orchestrator -/

/-- The query engine marks `found_by_coordinates` only when it also stores
the coordinates, so its metadata never trips the unguarded
`coords['lat']` access of the context assembler. -/
theorem query_found_by_coordinates_wf
    (mapping : List (String × String)) (locs : List String) (today : Date)
    (question : String) (db : List DataService.EDRecord)
    (env : DataService.QueryData)
    (h : DataService.query mapping locs today question db = .ok env) :
    env.metadata.found_by_coordinates = true → env.metadata.coordinates.isSome := by
  intro hf
  unfold DataService.query at h
  simp only [String.toList, Bind.bind, Except.bind] at h
  split at h
  · exact Except.noConfusion h
  · injection h with h'
    subst h'
    rcases hco : DataService.parseCoordinates question.data with _ | ⟨la, lo⟩
    · simp [String.toList, hco] at hf
    · rcases hfl : DataService.findLocationByCoordinates db la lo with _ | l
      · simp [String.toList, hco, hfl] at hf
      · simp [String.toList, hco, hfl]

/-- The environmental-data section of the context assembler returns a value
whenever the metadata block cannot trip the `coords['lat']` access. -/
theorem envSection_total (envData : ChatService.EnvDataIn)
    (hwf : ∀ m, envData.metadata = some m →
      m.found_by_coordinates = true → m.coordinates.isSome) :
    ∃ ls, ChatService.envSection envData = .ok ls := by
  unfold ChatService.envSection
  cases hm : envData.metadata with
  | none =>
    simp only [hm, Option.none_bind, ChatService.optTruthyStr, Bind.bind, Except.bind]
    split <;> exact ⟨_, rfl⟩
  | some m =>
    rcases hl : ChatService.optTruthyStr m.location with _ | loc
    · simp only [hm, Option.some_bind, hl, Bind.bind, Except.bind]
      repeat' split
      all_goals exact ⟨_, rfl⟩
    · by_cases hfb : m.found_by_coordinates
      · have hco := hwf m hm hfb
        rcases hcoeq : m.coordinates with _ | cp
        · rw [hcoeq] at hco
          simp at hco
        · simp only [hm, Option.some_bind, hl, hfb, hcoeq, Bind.bind, Except.bind]
          repeat' split
          all_goals exact ⟨_, rfl⟩
      · simp only [hm, Option.some_bind, hl, Bool.not_eq_true] at hfb ⊢
        simp only [hfb, Bind.bind, Except.bind]
        repeat' split
        all_goals first
          | exact ⟨_, rfl⟩
          | simp_all

/-- The context assembler returns a string under the same condition. -/
theorem buildContext_total (ragDocs : List ChatService.Doc)
    (envData : ChatService.EnvDataIn)
    (predictionResult : Option PredictionService.PredictOutput)
    (hwf : ∀ m, envData.metadata = some m →
      m.found_by_coordinates = true → m.coordinates.isSome) :
    ∃ s, ChatService.buildContext ragDocs envData predictionResult = .ok s := by
  obtain ⟨ls, hls⟩ := envSection_total envData hwf
  rcases hg : ChatService.buildContext ragDocs envData predictionResult with err | out
  · unfold ChatService.buildContext at hg
    simp only [hls, Bind.bind, Except.bind] at hg
    exact Except.noConfusion hg
  · exact ⟨out, rfl⟩

/-- The guideline-suggestion loop returns a value when every document has a
non-null `source`. -/
theorem docSuggestions_ok (docs : List ChatService.Doc)
    (h : ∀ d ∈ docs, d.source.isSome) :
    ∃ l, ChatService.docSuggestions docs = .ok l := by
  revert h
  induction docs with
  | nil => exact fun _ => ⟨[], rfl⟩
  | cons d rest ih =>
    intro h
    obtain ⟨l, hl⟩ := ih (fun x hx => h x (List.mem_cons_of_mem d hx))
    have hb : ∃ b, ChatService.suggestFromDoc d = .ok b := by
      unfold ChatService.suggestFromDoc
      split
      · exact ⟨true, rfl⟩
      · cases hs : d.source with
        | none =>
          have hd := h d (List.mem_cons_self d rest)
          rw [hs] at hd
          simp at hd
        | some s => exact ⟨_, rfl⟩
    obtain ⟨b, hb'⟩ := hb
    rcases hg : ChatService.docSuggestions (d :: rest) with err | out
    · unfold ChatService.docSuggestions at hg
      simp only [hb', hl, Bind.bind, Except.bind] at hg
      exact Except.noConfusion hg
    · exact ⟨out, rfl⟩

/-- The suggestion generator returns a list when the first two documents
have a non-null `source`. -/
theorem generateSuggestions_ok (ragDocs : List ChatService.Doc)
    (envData : DataService.QueryData)
    (pr : Option PredictionService.PredictOutput)
    (hwf : ∀ d ∈ ragDocs, d.source.isSome) :
    ∃ l, ChatService.generateSuggestions ragDocs envData pr = .ok l := by
  obtain ⟨l, hl⟩ :=
    docSuggestions_ok (ragDocs.take 2) (fun d hd => hwf d (List.mem_of_mem_take hd))
  rcases hg : ChatService.generateSuggestions ragDocs envData pr with err | out
  · unfold ChatService.generateSuggestions at hg
    simp only [hl, Bind.bind, Except.bind] at hg
    exact Except.noConfusion hg
  · exact ⟨out, rfl⟩

/-! ## Claim C7 -/

/-- C7: the context assembler `_build_context` returns a string and never
raises.  Part one: every metadata block the structured query engine produces
satisfies the one invariant the assembler relies on (coordinates are stored
whenever `found_by_coordinates` is set).  Part two: for every list of
documents, every `env_data` — results present or absent, statistics or
metadata blocks present or missing — satisfying that invariant, and every
prediction result (absent, success-shaped or failure-shaped), the assembler
returns a string. -/
theorem C7_build_context_never_raises :
    (∀ (mapping : List (String × String)) (locs : List String) (today : Date)
        (question : String) (db : List DataService.EDRecord)
        (env : DataService.QueryData),
      DataService.query mapping locs today question db = .ok env →
      ∀ m, (ChatService.envDataIn env).metadata = some m →
        m.found_by_coordinates = true → m.coordinates.isSome) ∧
    (∀ (ragDocs : List ChatService.Doc) (envData : ChatService.EnvDataIn)
        (predictionResult : Option PredictionService.PredictOutput),
      (∀ m, envData.metadata = some m →
        m.found_by_coordinates = true → m.coordinates.isSome) →
      ∃ s, ChatService.buildContext ragDocs envData predictionResult = .ok s) := by
  constructor
  · intro mapping locs today question db env hq m hm hf
    have hme : env.metadata = m := by
      simpa [ChatService.envDataIn] using hm
    subst hme
    exact query_found_by_coordinates_wf mapping locs today question db env hq hf
  · intro ragDocs envData predictionResult hwf
    exact buildContext_total ragDocs envData predictionResult hwf

/-- C7 witness: empty documents, empty results with both blocks missing, and
no prediction result still yield a context string. -/
theorem C7_build_context_never_raises_witness :
    ∃ s, ChatService.buildContext [] ⟨[], none, none⟩ none = .ok s :=
  C7_build_context_never_raises.2 [] ⟨[], none, none⟩ none
    (fun m hm => by cases hm)

/-! ## Claim C1 -/

/-- C1 counterexample: `process_message` has no `except` handler of its own
(only `try/finally`), so an exception raised inside the structured-data
query propagates to its caller instead of being absorbed — here a lost
database connection surfaces verbatim. -/
theorem C1_data_query_exception_propagates :
    ChatService.processMessage 0 "수질 알려줘" exCollabDataRaises =
      .error "OperationalError: connection lost" := by
  rfl

/-- C1 amended: `process_message` absorbs exceptions raised inside the
prediction call (`_perform_prediction` returns `None`), inside the LangChain
document search (its own handler returns `[]`) and inside the LLM call (an
inline error string) — part one holds for every outcome of those three
collaborators.  But the guarantee needs everything the hypotheses say: the
legacy document search and the structured query must return normally (their
exceptions propagate, as the counterexample shows), the query result is one
the query engine can produce, and every returned document row must carry a
non-null `source`.  Part two shows the last condition is not vacuous
bookkeeping but a real third unabsorbed failure path: with both collaborators
returning normally, a NULL-`source` legacy row whose title lacks
`가이드라인` makes the suggestion generator evaluate `"가이드라인" in None`,
and the `TypeError` propagates out of `process_message`. -/
theorem C1_absorption_amended
    (now : Int) (msg : String) (c : ChatService.Collaborators)
    (legacyDocs : List ChatService.Doc) (env : DataService.QueryData)
    (mapping : List (String × String)) (locs : List String) (today : Date)
    (question : String) (db : List DataService.EDRecord)
    (hleg : c.ragLegacy = .ok legacyDocs)
    (hq : c.dataQuery = .ok env)
    (henv : DataService.query mapping locs today question db = .ok env)
    (hWfLegacy : ∀ d ∈ legacyDocs, d.source.isSome)
    (hWfLang : ∀ docs, c.ragLangchainAttempt = .ok docs → ∀ d ∈ docs, d.source.isSome) :
    (∃ resp, ChatService.processMessage now msg c = .ok resp) ∧
    ChatService.processMessage 0 "hi" exCollabNullSource =
      .error "TypeError: argument of type 'NoneType' is not iterable" := by
  refine ⟨?_, by rfl⟩
  have hwf : ∀ m, (ChatService.envDataIn env).metadata = some m →
      m.found_by_coordinates = true → m.coordinates.isSome := by
    intro m hm hf
    have hme : env.metadata = m := by
      simpa [ChatService.envDataIn] using hm
    subst hme
    exact query_found_by_coordinates_wf mapping locs today question db env henv hf
  have hWfL : ∀ d ∈ ChatService.ragLangchainSearch c.ragLangchainAttempt,
      d.source.isSome := by
    unfold ChatService.ragLangchainSearch
    cases hA : c.ragLangchainAttempt with
    | ok docs => exact hWfLang docs hA
    | error e => simp
  have hWfUsed : ∀ d ∈ (if (ChatService.ragLangchainSearch c.ragLangchainAttempt).isEmpty
      then legacyDocs else ChatService.ragLangchainSearch c.ragLangchainAttempt),
      d.source.isSome := by
    split
    · exact hWfLegacy
    · exact hWfL
  obtain ⟨ctx, hctx⟩ := buildContext_total
    (if (ChatService.ragLangchainSearch c.ragLangchainAttempt).isEmpty then legacyDocs
     else ChatService.ragLangchainSearch c.ragLangchainAttempt)
    (ChatService.envDataIn env)
    (if (ChatService.detectPredictionRequest now msg).needs_prediction then
      ChatService.performPrediction env (ChatService.detectPredictionRequest now msg)
        c.predictCall
     else none)
    hwf
  obtain ⟨sugg, hsugg⟩ := generateSuggestions_ok
    (if (ChatService.ragLangchainSearch c.ragLangchainAttempt).isEmpty then legacyDocs
     else ChatService.ragLangchainSearch c.ragLangchainAttempt)
    env
    (if (ChatService.detectPredictionRequest now msg).needs_prediction then
      ChatService.performPrediction env (ChatService.detectPredictionRequest now msg)
        c.predictCall
     else none)
    hWfUsed
  rcases hg : ChatService.processMessage now msg c with err | out
  · unfold ChatService.processMessage at hg
    simp only [hleg, hq, hctx, hsugg, Bind.bind, Except.bind] at hg
    exact Except.noConfusion hg
  · exact ⟨out, rfl⟩

/-- C1 witness: with the LangChain search and the prediction call raising
but the legacy search and the structured query succeeding, an answer is
still returned. -/
theorem C1_absorption_amended_witness :
    ∃ resp, ChatService.processMessage 0 "다사 다음주 예측해줘" exCollabAbsorbed = .ok resp :=
  (C1_absorption_amended 0 "다사 다음주 예측해줘" exCollabAbsorbed [] exEnvEmpty
    [] [] ⟨2024, 1, 1⟩ "hi" [] rfl rfl (by rfl)
    (fun d hd => by cases hd)
    (fun docs hA => by cases hA)).1
